import Mathlib

/-!
# Stake transactions (`modules/stake/tx.go`)

A shallow embedding of the four stake transaction types, their constructors,
their `Wrap` methods, their `ValidateBasic` checks and the registration of
their wire discriminants, followed by the properties established about them.

Conventions of the embedding:

* a Go `error` result is an `Option StakeError`; `none` is Go's `nil`;
* the value held by the interface field of `sdk.Tx` is a `TxInner`, one
  constructor per dynamic type that can be stored there;
* a method promoted through struct embedding is a definition that forwards to
  the embedded field, which is what Go's selector rule does;
* `sdk.Actor` and `coin.Coin` belong to an external library; the embedding is
  generic in them and only uses the three predicates the source calls.
-/

namespace Stake

/-! ## External collaborators -/

/-- Modelled from the spec: `sdk.Actor` is an external, opaque value type of
which this package only calls `Empty()`. -/
class SdkActor (Actor : Type) where
  /-- The method `Actor.Empty()`. -/
  Empty : Actor → Bool

/-- Modelled from the spec: `coin.Coin` is an external, opaque value type;
`coin.Coins` is a Go slice of coins (a list) on which this package only calls
`IsValid()` and `IsNonnegative()`. -/
class CoinLib (Coin : Type) where
  /-- The method `Coins.IsValid()`. -/
  IsValid : List Coin → Bool
  /-- The method `Coins.IsNonnegative()`. -/
  IsNonnegative : List Coin → Bool

/-- Modelled from the spec: the error values used by `tx.go` are declared
outside `tx.go`; section 7 of the specification lists them as four distinct
kinds of validation error. -/
inductive StakeError where
  | ValidatorEmpty
  | InvalidCoins
  | CommissionNegative
  | CommissionHuge
  deriving DecidableEq, Repr

/-- The package-level error value `errValidatorEmpty`. -/
def errValidatorEmpty : StakeError := StakeError.ValidatorEmpty

/-- The package-level error value `errCommissionNegative`. -/
def errCommissionNegative : StakeError := StakeError.CommissionNegative

/-- The package-level error value `errCommissionHuge`. -/
def errCommissionHuge : StakeError := StakeError.CommissionHuge

/-- The external constructor `coin.ErrInvalidCoins()`. -/
def ErrInvalidCoins : StakeError := StakeError.InvalidCoins

/-! ## Decimal -/

/-- Modelled from the spec: the `Decimal` type of package `stake` is not part
of `tx.go`. Section 3 describes it as a fixed-point rational represented as a
numerator and a power-of-ten exponent. -/
structure Decimal where
  value : Int
  exponent : Int
  deriving DecidableEq, Repr

/-- Modelled from the spec: `NewDecimal(value, exponent)` "constructs
value × 10^(−exponent)" and has no error path (section 4.1). -/
def NewDecimal (value exponent : Int) : Decimal := ⟨value, exponent⟩

/-- Modelled from the spec: the exact rational a `Decimal` stands for under the
formula of section 4.1, value × 10^(−exponent). Section 3 states an invariant on
`NewDecimal(0, 1)` and `NewDecimal(1, 1)` instead and section 9 leaves the
convention open; the validators that take the convention as a parameter are
`TxNominate.ValidateBasicBy` and `TxModComm.ValidateBasicBy`. -/
def Decimal.toRat (d : Decimal) : ℚ := (d.value : ℚ) * (10 : ℚ) ^ (-d.exponent)

/-- Modelled from the spec: `LT` is the exact rational comparison "less than". -/
def Decimal.LT (a b : Decimal) : Bool := decide (a.toRat < b.toRat)

/-- Modelled from the spec: `GT` is the exact rational comparison "greater than". -/
def Decimal.GT (a b : Decimal) : Bool := decide (a.toRat > b.toRat)

/-! ## Wire discriminants -/

def ByteTxBond : Nat := 0x55
def ByteTxUnbond : Nat := 0x56
def ByteTxNominate : Nat := 0x57
def ByteTxModComm : Nat := 0x58

/-- The tag `name + "/bond"`; the constant `name` is declared outside `tx.go` and
is taken as a parameter. -/
def TypeTxBond (name : String) : String := name ++ "/bond"
def TypeTxUnbond (name : String) : String := name ++ "/unbond"
def TypeTxNominate (name : String) : String := name ++ "/nominate"
def TypeTxModComm (name : String) : String := name ++ "/modComm"

/-! ## Transaction types -/

/-- The struct `TxBonding`. -/
structure TxBonding (Actor Coin : Type) where
  Delegatee : Actor
  Amount : Coin
  deriving DecidableEq, Repr

/-- The struct `TxBond`, which embeds `TxBonding`. -/
structure TxBond (Actor Coin : Type) where
  TxBonding : TxBonding Actor Coin
  deriving DecidableEq, Repr

/-- The struct `TxUnbond`, which embeds `TxBonding`. -/
structure TxUnbond (Actor Coin : Type) where
  TxBonding : TxBonding Actor Coin
  deriving DecidableEq, Repr

/-- The struct `TxNominate`. -/
structure TxNominate (Actor Coin : Type) where
  Nominee : Actor
  Amount : Coin
  Commission : Decimal
  deriving DecidableEq, Repr

/-- The struct `TxModComm`. -/
structure TxModComm (Actor : Type) where
  Delegatee : Actor
  Commission : Decimal
  deriving DecidableEq, Repr

/-- The value stored in the interface `sdk.TxInner`: one constructor for each
type of `tx.go` that has the methods `Wrap` and `ValidateBasic`. -/
inductive TxInner (Actor Coin : Type) where
  | TxBond (tx : TxBond Actor Coin)
  | TxUnbond (tx : TxUnbond Actor Coin)
  | TxBonding (tx : TxBonding Actor Coin)
  | TxNominate (tx : TxNominate Actor Coin)
  | TxModComm (tx : TxModComm Actor)
  deriving DecidableEq, Repr

/-- The envelope `sdk.Tx`, built in `tx.go` as `sdk.Tx{tx}`: a struct with one
field holding the wrapped transaction as an interface value. -/
structure Tx (Actor Coin : Type) where
  TxInner : TxInner Actor Coin
  deriving DecidableEq, Repr

/-- The names of the Go types of `tx.go`. -/
inductive TxType where
  | TxBond
  | TxUnbond
  | TxBonding
  | TxNominate
  | TxModComm
  deriving DecidableEq, Repr

/-- The dynamic type of an interface value. -/
def TxInner.dynType {Actor Coin : Type} : TxInner Actor Coin → TxType
  | .TxBond _ => TxType.TxBond
  | .TxUnbond _ => TxType.TxUnbond
  | .TxBonding _ => TxType.TxBonding
  | .TxNominate _ => TxType.TxNominate
  | .TxModComm _ => TxType.TxModComm

/-! ## Registration -/

/-- One call of `sdk.TxMapper.RegisterImplementation(value, name, byte)`: the Go
type of the registered value, the tag string and the byte. -/
structure Registration where
  type : TxType
  typeName : String
  typeByte : Nat
  deriving DecidableEq, Repr

/-- The external mapper records the registrations in the order of the calls. -/
def RegisterImplementation (m : List Registration) (t : TxType) (typeName : String)
    (typeByte : Nat) : List Registration :=
  m ++ [⟨t, typeName, typeByte⟩]

/-- The function `init` of `tx.go`, as a transformation of the mapper. -/
def init (name : String) (m : List Registration) : List Registration :=
  let m := RegisterImplementation m TxType.TxBond (TypeTxBond name) ByteTxBond
  let m := RegisterImplementation m TxType.TxUnbond (TypeTxUnbond name) ByteTxUnbond
  let m := RegisterImplementation m TxType.TxNominate (TypeTxNominate name) ByteTxNominate
  RegisterImplementation m TxType.TxModComm (TypeTxModComm name) ByteTxModComm

section Code

variable {Actor Coin : Type}

/-! ## Wrap -/

/-- The method `func (tx TxBonding) Wrap() sdk.Tx`. -/
def TxBonding.Wrap (tx : TxBonding Actor Coin) : Tx Actor Coin :=
  ⟨TxInner.TxBonding tx⟩

/-- `TxBond` declares no `Wrap`; the selector `TxBond.Wrap` is the method of the
embedded `TxBonding`, called on the embedded field. -/
def TxBond.Wrap (tx : TxBond Actor Coin) : Tx Actor Coin :=
  tx.TxBonding.Wrap

/-- `TxUnbond` declares no `Wrap`; the selector `TxUnbond.Wrap` is the method of
the embedded `TxBonding`, called on the embedded field. -/
def TxUnbond.Wrap (tx : TxUnbond Actor Coin) : Tx Actor Coin :=
  tx.TxBonding.Wrap

/-- The method `func (tx TxNominate) Wrap() sdk.Tx`. -/
def TxNominate.Wrap (tx : TxNominate Actor Coin) : Tx Actor Coin :=
  ⟨TxInner.TxNominate tx⟩

/-- The method `func (tx TxModComm) Wrap() sdk.Tx`. -/
def TxModComm.Wrap (tx : TxModComm Actor) : Tx Actor Coin :=
  ⟨TxInner.TxModComm tx⟩

/-! ## Constructors -/

/-- The function `NewTxBond`. -/
def NewTxBond (delegatee : Actor) (amount : Coin) : Tx Actor Coin :=
  TxBond.Wrap (TxBond.mk (TxBonding.mk delegatee amount))

/-- The function `NewTxUnbond`. -/
def NewTxUnbond (delegatee : Actor) (amount : Coin) : Tx Actor Coin :=
  TxUnbond.Wrap (TxUnbond.mk (TxBonding.mk delegatee amount))

/-- The function `NewTxNominate`. -/
def NewTxNominate (nominee : Actor) (amount : Coin) (commission : Decimal) : Tx Actor Coin :=
  TxNominate.Wrap (TxNominate.mk nominee amount commission)

/-- The function `NewTxModComm`. -/
def NewTxModComm (delegatee : Actor) (commission : Decimal) : Tx Actor Coin :=
  TxModComm.Wrap (TxModComm.mk delegatee commission)

/-! ## ValidateBasic -/

variable [SdkActor Actor] [CoinLib Coin]

/-- The method `func (tx TxBonding) ValidateBasic() error`. -/
def TxBonding.ValidateBasic (tx : TxBonding Actor Coin) : Option StakeError :=
  if SdkActor.Empty tx.Delegatee then
    some errValidatorEmpty
  else
    let coins : List Coin := [tx.Amount]
    if !CoinLib.IsValid coins then
      some ErrInvalidCoins
    else if !CoinLib.IsNonnegative coins then
      some ErrInvalidCoins
    else
      none

/-- `TxBond` declares no `ValidateBasic`; the promoted method of the embedded
`TxBonding` is the one called. -/
def TxBond.ValidateBasic (tx : TxBond Actor Coin) : Option StakeError :=
  tx.TxBonding.ValidateBasic

/-- `TxUnbond` declares no `ValidateBasic`; the promoted method of the embedded
`TxBonding` is the one called. -/
def TxUnbond.ValidateBasic (tx : TxUnbond Actor Coin) : Option StakeError :=
  tx.TxBonding.ValidateBasic

/-- The method `func (tx TxNominate) ValidateBasic() error`. -/
def TxNominate.ValidateBasic (tx : TxNominate Actor Coin) : Option StakeError :=
  if SdkActor.Empty tx.Nominee then
    some errValidatorEmpty
  else
    let coins : List Coin := [tx.Amount]
    if !CoinLib.IsValid coins then
      some ErrInvalidCoins
    else if !CoinLib.IsNonnegative coins then
      some ErrInvalidCoins
    else if tx.Commission.LT (NewDecimal 0 1) then
      some errCommissionNegative
    else if tx.Commission.GT (NewDecimal 1 1) then
      some errCommissionHuge
    else
      none

/-- The method `func (tx TxModComm) ValidateBasic() error`. -/
def TxModComm.ValidateBasic (tx : TxModComm Actor) : Option StakeError :=
  if SdkActor.Empty tx.Delegatee then
    some errValidatorEmpty
  else if tx.Commission.LT (NewDecimal 0 1) then
    some errCommissionNegative
  else if tx.Commission.GT (NewDecimal 1 1) then
    some errCommissionHuge
  else
    none

/-- The call `tx.ValidateBasic()` on an interface value: dynamic dispatch to the
method of the stored type. -/
def TxInner.ValidateBasic : TxInner Actor Coin → Option StakeError
  | .TxBond tx => tx.ValidateBasic
  | .TxUnbond tx => tx.ValidateBasic
  | .TxBonding tx => tx.ValidateBasic
  | .TxNominate tx => tx.ValidateBasic
  | .TxModComm tx => tx.ValidateBasic

end Code

/-! ## Validation with the value convention of `Decimal` as a parameter

The source of `Decimal` is not part of `tx.go`. Here the exact rational a
`Decimal` stands for is a parameter `val`; the validators are the same bodies. -/

/-- Modelled from the spec: `LT` as the exact comparison "less than" of the
rationals the two decimals stand for under `val`. -/
def Decimal.LTBy (val : Decimal → ℚ) (a b : Decimal) : Bool := decide (val a < val b)

/-- Modelled from the spec: `GT` as the exact comparison "greater than" of the
rationals the two decimals stand for under `val`. -/
def Decimal.GTBy (val : Decimal → ℚ) (a b : Decimal) : Bool := decide (val a > val b)

/-- Modelled from the spec: the reading of section 3, in which the second
argument of `NewDecimal` is the scale the value is carried at, so that
`NewDecimal(0, 1)` is exactly "0.0" and `NewDecimal(1, 1)` exactly "1.0". -/
def Decimal.scaled (d : Decimal) : ℚ := (d.value : ℚ)

section CodeBy

variable {Actor Coin : Type} [SdkActor Actor] [CoinLib Coin]

/-- The method `func (tx TxNominate) ValidateBasic() error`, with the value
convention of `Decimal` as the parameter `val`. -/
def TxNominate.ValidateBasicBy (val : Decimal → ℚ) (tx : TxNominate Actor Coin) :
    Option StakeError :=
  if SdkActor.Empty tx.Nominee then
    some errValidatorEmpty
  else
    let coins : List Coin := [tx.Amount]
    if !CoinLib.IsValid coins then
      some ErrInvalidCoins
    else if !CoinLib.IsNonnegative coins then
      some ErrInvalidCoins
    else if tx.Commission.LTBy val (NewDecimal 0 1) then
      some errCommissionNegative
    else if tx.Commission.GTBy val (NewDecimal 1 1) then
      some errCommissionHuge
    else
      none

/-- The method `func (tx TxModComm) ValidateBasic() error`, with the value
convention of `Decimal` as the parameter `val`. -/
def TxModComm.ValidateBasicBy (val : Decimal → ℚ) (tx : TxModComm Actor) :
    Option StakeError :=
  if SdkActor.Empty tx.Delegatee then
    some errValidatorEmpty
  else if tx.Commission.LTBy val (NewDecimal 0 1) then
    some errCommissionNegative
  else if tx.Commission.GTBy val (NewDecimal 1 1) then
    some errCommissionHuge
  else
    none

end CodeBy

/-! ## A concrete actor and coin

The scenarios of the specification write actors as strings (`"V1"`, `""`) and
amounts as a number with a denomination (`100 "STAKE"`). -/

/-- Modelled from the spec: an actor given by its address; the unset address is
the empty one. -/
structure Address where
  addr : String
  deriving DecidableEq, Repr

/-- Modelled from the spec: a single-denomination coin value. -/
structure DenomCoin where
  Denom : String
  Amount : Int
  deriving DecidableEq, Repr

instance : SdkActor Address where
  Empty a := a.addr.length == 0

/-- Modelled from the spec: `IsValid` is well-formedness of the denomination
(here: a non-empty name) and `IsNonnegative` is "value ≥ 0". -/
instance : CoinLib DenomCoin where
  IsValid coins := coins.all (fun c => c.Denom.length != 0)
  IsNonnegative coins := coins.all (fun c => decide (0 ≤ c.Amount))

/-! ## Concrete transactions used in the scenarios -/

/-- The transaction `Nominate(nominee="V2", amount=50 "STAKE", commission=0.5)`. -/
def nominateHalf : TxNominate Address DenomCoin :=
  ⟨⟨"V2"⟩, ⟨"STAKE", 50⟩, NewDecimal 5 1⟩

/-- The transaction `Nominate(nominee="", amount=-5 "STAKE", commission=1.5)`:
an unset nominee, a negative amount and a commission above every bound. -/
def nominateAllWrong : TxNominate Address DenomCoin :=
  ⟨⟨""⟩, ⟨"STAKE", -5⟩, NewDecimal 15 1⟩

/-- The transaction `Nominate(nominee="V2", amount=-5 "STAKE", commission=1.5)`:
a negative amount and a commission above every bound. -/
def nominateNegativeHuge : TxNominate Address DenomCoin :=
  ⟨⟨"V2"⟩, ⟨"STAKE", -5⟩, NewDecimal 15 1⟩

/-- The transaction `Bond(delegatee="V1", amount=-5 "")` before wrapping: the
denomination is not well formed and the value is negative. -/
def bondInvalidDenom : TxBonding Address DenomCoin :=
  ⟨⟨"V1"⟩, ⟨"", -5⟩⟩

/-! ## Sequential composition of validators -/

section Composition

variable {Actor Coin : Type} [SdkActor Actor] [CoinLib Coin]

/-- The composition the claim about `TxNominate` describes, written from its
words and not from the body of `TxNominate.ValidateBasic`: run the bonding
validator on nominee and amount; when it fails return its error, otherwise
return the result of the commission validator on nominee and commission. -/
def bondingThenModComm (n : Actor) (a : Coin) (c : Decimal) : Option StakeError :=
  match (TxBonding.mk n a).ValidateBasic with
  | some e => some e
  | none => (TxModComm.mk n c).ValidateBasic

end Composition

/-! ## Properties of `Decimal` -/

theorem NewDecimal_zero_one_toRat : (NewDecimal 0 1).toRat = 0 := by
  simp [NewDecimal, Decimal.toRat]

theorem NewDecimal_one_one_toRat : (NewDecimal 1 1).toRat = 1 / 10 := by
  simp [NewDecimal, Decimal.toRat]

theorem Decimal_LT_iff (a b : Decimal) : a.LT b = true ↔ a.toRat < b.toRat := by
  simp [Decimal.LT]

theorem Decimal_GT_iff (a b : Decimal) : a.GT b = true ↔ b.toRat < a.toRat := by
  simp [Decimal.GT]

theorem Decimal_LT_zero_iff (c : Decimal) : c.LT (NewDecimal 0 1) = true ↔ c.toRat < 0 := by
  rw [Decimal_LT_iff, NewDecimal_zero_one_toRat]

theorem Decimal_GT_bound_iff (c : Decimal) :
    c.GT (NewDecimal 1 1) = true ↔ 1 / 10 < c.toRat := by
  rw [Decimal_GT_iff, NewDecimal_one_one_toRat]

/-! ## Characterisation of the validators -/

section Validators

variable {Actor Coin : Type} [SdkActor Actor] [CoinLib Coin]

theorem TxBonding_ValidateBasic_eq_none_iff (tx : TxBonding Actor Coin) :
    tx.ValidateBasic = none ↔
      SdkActor.Empty tx.Delegatee = false ∧ CoinLib.IsValid [tx.Amount] = true ∧
        CoinLib.IsNonnegative [tx.Amount] = true := by
  simp only [TxBonding.ValidateBasic]
  split_ifs <;> simp_all

theorem TxModComm_ValidateBasic_eq_none_iff (tx : TxModComm Actor) :
    tx.ValidateBasic = none ↔
      SdkActor.Empty tx.Delegatee = false ∧ 0 ≤ tx.Commission.toRat ∧
        tx.Commission.toRat ≤ 1 / 10 := by
  simp only [TxModComm.ValidateBasic, Decimal_LT_zero_iff, Decimal_GT_bound_iff]
  split_ifs with hE h0 h1
  · simp [hE]
  · simp only [reduceCtorEq, false_iff, not_and, not_le]
    intro _ h
    exact absurd h (not_le.2 h0)
  · simp only [reduceCtorEq, false_iff, not_and, not_le]
    intro _ _
    exact h1
  · simp only [true_iff]
    exact ⟨by simpa using hE, not_lt.1 h0, not_lt.1 h1⟩

theorem TxNominate_ValidateBasic_eq (tx : TxNominate Actor Coin) :
    tx.ValidateBasic =
      match (TxBonding.mk tx.Nominee tx.Amount).ValidateBasic with
      | some e => some e
      | none => (TxModComm.mk tx.Nominee tx.Commission).ValidateBasic := by
  simp only [TxNominate.ValidateBasic, TxBonding.ValidateBasic, TxModComm.ValidateBasic]
  split_ifs <;> simp_all

end Validators

/-! ## Evaluation of the concrete transactions -/

theorem toRat_five_one : (NewDecimal 5 1).toRat = 1 / 2 := by
  simp only [NewDecimal, Decimal.toRat]; norm_num

theorem toRat_one_zero : (NewDecimal 1 0).toRat = 1 := by
  simp [NewDecimal, Decimal.toRat]

theorem Address_Empty_V1 : SdkActor.Empty (Address.mk "V1") = false := by decide

theorem Address_Empty_V2 : SdkActor.Empty (Address.mk "V2") = false := by decide

theorem Address_Empty_unset : SdkActor.Empty (Address.mk "") = true := by decide

theorem DenomCoin_IsValid_STAKE (n : Int) :
    CoinLib.IsValid [DenomCoin.mk "STAKE" n] = true := by
  simp only [CoinLib.IsValid, List.all_cons, List.all_nil, Bool.and_true]
  decide

theorem DenomCoin_IsNonnegative_iff (d : String) (n : Int) :
    CoinLib.IsNonnegative [DenomCoin.mk d n] = true ↔ 0 ≤ n := by
  simp [CoinLib.IsNonnegative]

/-! ## Commission bounds of `TxNominate` -/

theorem TxNominate_ValidateBasic_eq_none_iff {Actor Coin : Type} [SdkActor Actor]
    [CoinLib Coin] (tx : TxNominate Actor Coin) :
    tx.ValidateBasic = none ↔
      SdkActor.Empty tx.Nominee = false ∧ CoinLib.IsValid [tx.Amount] = true ∧
        CoinLib.IsNonnegative [tx.Amount] = true ∧
        0 ≤ tx.Commission.toRat ∧ tx.Commission.toRat ≤ 1 / 10 := by
  rw [TxNominate_ValidateBasic_eq]
  have hB := TxBonding_ValidateBasic_eq_none_iff (TxBonding.mk tx.Nominee tx.Amount)
  have hM := TxModComm_ValidateBasic_eq_none_iff (TxModComm.mk tx.Nominee tx.Commission)
  cases hb : (TxBonding.mk tx.Nominee tx.Amount).ValidateBasic with
  | none =>
    have h3 := hB.1 hb
    simp only [hM]
    constructor
    · rintro ⟨h1, h2⟩
      exact ⟨h3.1, h3.2.1, h3.2.2, h2⟩
    · rintro ⟨h1, _, _, h2⟩
      exact ⟨h1, h2⟩
  | some e =>
    simp only [reduceCtorEq, false_iff]
    rintro ⟨h1, h2, h3, _⟩
    have := hB.2 ⟨h1, h2, h3⟩
    rw [hb] at this
    exact Option.noConfusion this

/-- C1 (code at the failing input): under the convention the claim states,
value × 10^(−exponent), the bound `NewDecimal(1, 1)` the code compares against
is 0.1 while 1.0 is `NewDecimal(1, 0)`. For nominee `"V2"`, amount `50 "STAKE"`
and commission `NewDecimal(5, 1) = 0.5`, the nominee is non-empty, the coin set
is valid and non-negative and `0.0 ≤ 0.5 ≤ 1.0`, yet `ValidateBasic` returns
`CommissionHuge`. -/
theorem nominateHalf_rejected :
    (SdkActor.Empty nominateHalf.Nominee = false ∧
      CoinLib.IsValid [nominateHalf.Amount] = true ∧
      CoinLib.IsNonnegative [nominateHalf.Amount] = true ∧
      0 ≤ nominateHalf.Commission.toRat ∧ nominateHalf.Commission.toRat ≤ 1) ∧
    nominateHalf.Commission.toRat = 1 / 2 ∧
    (NewDecimal 1 1).toRat = 1 / 10 ∧ (NewDecimal 1 0).toRat = 1 ∧
    nominateHalf.Commission.GT (NewDecimal 1 1) = true ∧
    nominateHalf.Commission.GT (NewDecimal 1 0) = false ∧
    nominateHalf.ValidateBasic = some errCommissionHuge ∧
    ¬ (nominateHalf.ValidateBasic = none ↔
        (SdkActor.Empty nominateHalf.Nominee = false ∧
          CoinLib.IsValid [nominateHalf.Amount] = true ∧
          CoinLib.IsNonnegative [nominateHalf.Amount] = true ∧
          0 ≤ nominateHalf.Commission.toRat ∧ nominateHalf.Commission.toRat ≤ 1)) := by
  have hR : nominateHalf.Commission.toRat = 1 / 2 := toRat_five_one
  have hE : SdkActor.Empty nominateHalf.Nominee = false := Address_Empty_V2
  have hV : CoinLib.IsValid [nominateHalf.Amount] = true := DenomCoin_IsValid_STAKE 50
  have hN : CoinLib.IsNonnegative [nominateHalf.Amount] = true :=
    (DenomCoin_IsNonnegative_iff "STAKE" 50).2 (by decide)
  have hL : nominateHalf.Commission.LT (NewDecimal 0 1) = false := by
    rw [← Bool.not_eq_true, Decimal_LT_zero_iff, hR]; norm_num
  have hG : nominateHalf.Commission.GT (NewDecimal 1 1) = true := by
    rw [Decimal_GT_bound_iff, hR]; norm_num
  have hG1 : nominateHalf.Commission.GT (NewDecimal 1 0) = false := by
    rw [← Bool.not_eq_true, Decimal_GT_iff, hR, toRat_one_zero]; norm_num
  have hRes : nominateHalf.ValidateBasic = some errCommissionHuge := by
    simp [TxNominate.ValidateBasic, hE, hV, hN, hL, hG]
  have hRhs : SdkActor.Empty nominateHalf.Nominee = false ∧
      CoinLib.IsValid [nominateHalf.Amount] = true ∧
      CoinLib.IsNonnegative [nominateHalf.Amount] = true ∧
      0 ≤ nominateHalf.Commission.toRat ∧ nominateHalf.Commission.toRat ≤ 1 := by
    refine ⟨hE, hV, hN, ?_, ?_⟩ <;> rw [hR] <;> norm_num
  refine ⟨hRhs, hR, NewDecimal_one_one_toRat, toRat_one_zero, hG, hG1, hRes, ?_⟩
  intro h
  have := h.2 hRhs
  rw [hRes] at this
  exact Option.noConfusion this

/-! ## Exactness at the boundary -/

section Boundary

variable {Actor Coin : Type} [SdkActor Actor] [CoinLib Coin]

theorem TxModComm_ValidateBasicBy_eq_none_iff (val : Decimal → ℚ) (tx : TxModComm Actor) :
    tx.ValidateBasicBy val = none ↔
      SdkActor.Empty tx.Delegatee = false ∧ val (NewDecimal 0 1) ≤ val tx.Commission ∧
        val tx.Commission ≤ val (NewDecimal 1 1) := by
  simp only [TxModComm.ValidateBasicBy, Decimal.LTBy, Decimal.GTBy, decide_eq_true_eq]
  split_ifs with hE h0 h1
  · simp [hE]
  · simp only [reduceCtorEq, false_iff, not_and, not_le]
    intro _ h
    exact absurd h (not_le.2 h0)
  · simp only [reduceCtorEq, false_iff, not_and, not_le]
    intro _ _
    exact h1
  · simp only [true_iff]
    exact ⟨by simpa using hE, not_lt.1 h0, not_lt.1 h1⟩

theorem TxNominate_ValidateBasicBy_eq (val : Decimal → ℚ) (tx : TxNominate Actor Coin) :
    tx.ValidateBasicBy val =
      match (TxBonding.mk tx.Nominee tx.Amount).ValidateBasic with
      | some e => some e
      | none => (TxModComm.mk tx.Nominee tx.Commission).ValidateBasicBy val := by
  simp only [TxNominate.ValidateBasicBy, TxBonding.ValidateBasic, TxModComm.ValidateBasicBy]
  split_ifs <;> simp_all

theorem TxModComm_ValidateBasicBy_toRat (tx : TxModComm Actor) :
    tx.ValidateBasicBy Decimal.toRat = tx.ValidateBasic := rfl

theorem TxNominate_ValidateBasicBy_toRat (tx : TxNominate Actor Coin) :
    tx.ValidateBasicBy Decimal.toRat = tx.ValidateBasic := rfl

end Boundary

/-- C2: let `val` give the exact rational each `Decimal` stands for, with the
invariant of section 3 that `NewDecimal(0, 1)` is exactly 0.0 and
`NewDecimal(1, 1)` exactly 1.0, and let `LT` and `GT` compare these rationals
exactly. Then for a non-empty actor a commission equal to exactly 0.0 or exactly
1.0 makes `TxModComm.ValidateBasic` succeed, returning neither
`CommissionNegative` nor `CommissionHuge`, and makes `TxNominate.ValidateBasic`
succeed when the amount checks pass. -/
theorem boundary_commission_accepted {Actor Coin : Type} [SdkActor Actor] [CoinLib Coin]
    (val : Decimal → ℚ) (h0 : val (NewDecimal 0 1) = 0) (h1 : val (NewDecimal 1 1) = 1)
    (n : Actor) (a : Coin) (c : Decimal) (hE : SdkActor.Empty n = false)
    (hc : val c = 0 ∨ val c = 1) :
    (TxModComm.mk n c).ValidateBasicBy val = none ∧
      (TxModComm.mk n c).ValidateBasicBy val ≠ some errCommissionNegative ∧
      (TxModComm.mk n c).ValidateBasicBy val ≠ some errCommissionHuge ∧
      (CoinLib.IsValid [a] = true → CoinLib.IsNonnegative [a] = true →
        (TxNominate.mk n a c).ValidateBasicBy val = none ∧
        (TxNominate.mk n a c).ValidateBasicBy val ≠ some errCommissionNegative ∧
        (TxNominate.mk n a c).ValidateBasicBy val ≠ some errCommissionHuge) := by
  have hr : val (NewDecimal 0 1) ≤ val c ∧ val c ≤ val (NewDecimal 1 1) := by
    rw [h0, h1]
    rcases hc with h | h <;> rw [h] <;> norm_num
  have hM : (TxModComm.mk n c).ValidateBasicBy val = none :=
    (TxModComm_ValidateBasicBy_eq_none_iff val _).2 ⟨hE, hr⟩
  refine ⟨hM, by rw [hM]; decide, by rw [hM]; decide, fun hV hN => ?_⟩
  have hB : (TxBonding.mk n a).ValidateBasic = none :=
    (TxBonding_ValidateBasic_eq_none_iff _).2 ⟨hE, hV, hN⟩
  have hNom : (TxNominate.mk n a c).ValidateBasicBy val = none := by
    rw [TxNominate_ValidateBasicBy_eq]
    simp only [hB]
    exact hM
  exact ⟨hNom, by rw [hNom]; decide, by rw [hNom]; decide⟩

/-- C2 (witness): with the reading `Decimal.scaled` of section 3, nominee `"V2"`,
amount `50 "STAKE"` and the commission `NewDecimal(1, 1)`, exactly 1.0. -/
theorem boundary_commission_accepted_witness :
    Decimal.scaled (NewDecimal 0 1) = 0 ∧ Decimal.scaled (NewDecimal 1 1) = 1 ∧
      SdkActor.Empty (Address.mk "V2") = false ∧
      (TxModComm.mk (Address.mk "V2") (NewDecimal 1 1)).ValidateBasicBy Decimal.scaled =
        none ∧
      (TxNominate.mk (Address.mk "V2") (DenomCoin.mk "STAKE" 50)
        (NewDecimal 1 1)).ValidateBasicBy Decimal.scaled = none :=
  have h0 : Decimal.scaled (NewDecimal 0 1) = 0 := by
    simp [Decimal.scaled, NewDecimal]
  have h1 : Decimal.scaled (NewDecimal 1 1) = 1 := by
    simp [Decimal.scaled, NewDecimal]
  have h := boundary_commission_accepted Decimal.scaled h0 h1 (Address.mk "V2")
    (DenomCoin.mk "STAKE" 50) (NewDecimal 1 1) Address_Empty_V2 (Or.inr h1)
  ⟨h0, h1, Address_Empty_V2, h.1,
    (h.2.2.2 (DenomCoin_IsValid_STAKE 50)
      ((DenomCoin_IsNonnegative_iff "STAKE" 50).2 (by decide))).1⟩

/-! ## The envelope built by the bonding constructors -/

/-- C3 (code behaviour): `NewTxBond(d, a)` and `NewTxUnbond(d, a)` return the same
envelope, which carries a bare `TxBonding` and neither a `TxBond` nor a
`TxUnbond`; `TxBonding` is not among the types `init` registers, so the
discriminants `/bond`, 0x55 and `/unbond`, 0x56 attach to neither envelope. -/
theorem NewTxBond_eq_NewTxUnbond {Actor Coin : Type} (d : Actor) (a : Coin) (name : String) :
    NewTxBond d a = Tx.mk (TxInner.TxBonding (TxBonding.mk d a)) ∧
      NewTxUnbond d a = NewTxBond d a ∧
      (NewTxBond d a).TxInner.dynType = TxType.TxBonding ∧
      (NewTxUnbond d a).TxInner.dynType = TxType.TxBonding ∧
      (NewTxBond d a).TxInner.dynType ∉ (init name []).map Registration.type ∧
      (init name []).map Registration.type =
        [TxType.TxBond, TxType.TxUnbond, TxType.TxNominate, TxType.TxModComm] := by
  refine ⟨rfl, rfl, rfl, rfl, ?_, rfl⟩
  simp [init, RegisterImplementation, NewTxBond, TxBond.Wrap, TxBonding.Wrap, TxInner.dynType]

/-! ## Bonding transactions -/

/-- The transaction `Bond(delegatee="V1", amount=100 "STAKE")` before wrapping. -/
def bondV1 : TxBonding Address DenomCoin :=
  ⟨⟨"V1"⟩, ⟨"STAKE", 100⟩⟩

/-- The transaction `Bond(delegatee="", amount=100 "STAKE")` before wrapping. -/
def bondUnset : TxBonding Address DenomCoin :=
  ⟨⟨""⟩, ⟨"STAKE", 100⟩⟩

/-- The transaction `Unbond(delegatee="V1", amount=-5 "STAKE")` before wrapping. -/
def unbondNegative : TxBonding Address DenomCoin :=
  ⟨⟨"V1"⟩, ⟨"STAKE", -5⟩⟩

/-- The transaction `Unbond(delegatee="", amount=-5 "STAKE")` before wrapping. -/
def unbondUnsetNegative : TxBonding Address DenomCoin :=
  ⟨⟨""⟩, ⟨"STAKE", -5⟩⟩

/-- C4: a bonding transaction, Bond or Unbond, whose delegatee is non-empty and
whose singleton coin set is valid and non-negative passes `ValidateBasic`. -/
theorem bonding_ValidateBasic_ok {Actor Coin : Type} [SdkActor Actor] [CoinLib Coin]
    (tx : TxBonding Actor Coin) (hE : SdkActor.Empty tx.Delegatee = false)
    (hV : CoinLib.IsValid [tx.Amount] = true)
    (hN : CoinLib.IsNonnegative [tx.Amount] = true) :
    (TxBond.mk tx).ValidateBasic = none ∧ (TxUnbond.mk tx).ValidateBasic = none := by
  have h := (TxBonding_ValidateBasic_eq_none_iff tx).2 ⟨hE, hV, hN⟩
  exact ⟨h, h⟩

/-- C4 (witness): `Bond(delegatee="V1", amount=100 "STAKE")` validates. -/
theorem bonding_ValidateBasic_ok_witness :
    SdkActor.Empty bondV1.Delegatee = false ∧ CoinLib.IsValid [bondV1.Amount] = true ∧
      CoinLib.IsNonnegative [bondV1.Amount] = true ∧
      (TxBond.mk bondV1).ValidateBasic = none ∧ (TxUnbond.mk bondV1).ValidateBasic = none :=
  have hN : CoinLib.IsNonnegative [bondV1.Amount] = true :=
    (DenomCoin_IsNonnegative_iff "STAKE" 100).2 (by decide)
  have h := bonding_ValidateBasic_ok bondV1 Address_Empty_V1 (DenomCoin_IsValid_STAKE 100) hN
  ⟨Address_Empty_V1, DenomCoin_IsValid_STAKE 100, hN, h.1, h.2⟩

/-- C5: a bonding transaction, Bond or Unbond, with an empty delegatee fails with
`ValidatorEmpty`, whatever its amount is. -/
theorem bonding_ValidateBasic_empty {Actor Coin : Type} [SdkActor Actor] [CoinLib Coin]
    (tx : TxBonding Actor Coin) (hE : SdkActor.Empty tx.Delegatee = true) :
    (TxBond.mk tx).ValidateBasic = some errValidatorEmpty ∧
      (TxUnbond.mk tx).ValidateBasic = some errValidatorEmpty := by
  have h : tx.ValidateBasic = some errValidatorEmpty := by
    simp [TxBonding.ValidateBasic, hE]
  exact ⟨h, h⟩

/-- C5 (witness): `Bond(delegatee="", amount=100 "STAKE")` fails with
`ValidatorEmpty`. -/
theorem bonding_ValidateBasic_empty_witness :
    SdkActor.Empty bondUnset.Delegatee = true ∧
      (TxBond.mk bondUnset).ValidateBasic = some errValidatorEmpty ∧
      (TxUnbond.mk bondUnset).ValidateBasic = some errValidatorEmpty :=
  have h := bonding_ValidateBasic_empty bondUnset Address_Empty_unset
  ⟨Address_Empty_unset, h.1, h.2⟩

/-- C6 (amended): a bonding transaction, Bond or Unbond, with a non-empty
delegatee whose amount has a valid denomination but a negative value fails with
`InvalidCoins`. -/
theorem bonding_ValidateBasic_negative {Actor Coin : Type} [SdkActor Actor] [CoinLib Coin]
    (tx : TxBonding Actor Coin) (hE : SdkActor.Empty tx.Delegatee = false)
    (hV : CoinLib.IsValid [tx.Amount] = true)
    (hN : CoinLib.IsNonnegative [tx.Amount] = false) :
    (TxBond.mk tx).ValidateBasic = some ErrInvalidCoins ∧
      (TxUnbond.mk tx).ValidateBasic = some ErrInvalidCoins := by
  have h : tx.ValidateBasic = some ErrInvalidCoins := by
    simp [TxBonding.ValidateBasic, hE, hV, hN]
  exact ⟨h, h⟩

/-- C6 (witness): `Unbond(delegatee="V1", amount=-5 "STAKE")` fails with
`InvalidCoins`. -/
theorem bonding_ValidateBasic_negative_witness :
    SdkActor.Empty unbondNegative.Delegatee = false ∧
      CoinLib.IsValid [unbondNegative.Amount] = true ∧
      CoinLib.IsNonnegative [unbondNegative.Amount] = false ∧
      (TxBond.mk unbondNegative).ValidateBasic = some ErrInvalidCoins ∧
      (TxUnbond.mk unbondNegative).ValidateBasic = some ErrInvalidCoins :=
  have hN : CoinLib.IsNonnegative [unbondNegative.Amount] = false := by
    rw [← Bool.not_eq_true]
    exact fun h => absurd ((DenomCoin_IsNonnegative_iff "STAKE" (-5)).1 h) (by decide)
  have h := bonding_ValidateBasic_negative unbondNegative Address_Empty_V1
    (DenomCoin_IsValid_STAKE (-5)) hN
  ⟨Address_Empty_V1, DenomCoin_IsValid_STAKE (-5), hN, h.1, h.2⟩

/-- C6 (counterexample): `Unbond(delegatee="", amount=-5 "STAKE")` has a valid
denomination and a negative value, and `ValidateBasic` returns `ValidatorEmpty`,
not `InvalidCoins`. -/
theorem unbondUnsetNegative_ValidatorEmpty :
    CoinLib.IsValid [unbondUnsetNegative.Amount] = true ∧
      CoinLib.IsNonnegative [unbondUnsetNegative.Amount] = false ∧
      unbondUnsetNegative.Amount.Amount < 0 ∧
      (TxUnbond.mk unbondUnsetNegative).ValidateBasic = some errValidatorEmpty ∧
      (TxUnbond.mk unbondUnsetNegative).ValidateBasic ≠ some ErrInvalidCoins ∧
      (TxBond.mk unbondUnsetNegative).ValidateBasic ≠ some ErrInvalidCoins := by
  have hN : CoinLib.IsNonnegative [unbondUnsetNegative.Amount] = false := by
    rw [← Bool.not_eq_true]
    exact fun h => absurd ((DenomCoin_IsNonnegative_iff "STAKE" (-5)).1 h) (by decide)
  have hE : SdkActor.Empty unbondUnsetNegative.Delegatee = true := Address_Empty_unset
  have hR : unbondUnsetNegative.ValidateBasic = some errValidatorEmpty := by
    simp [TxBonding.ValidateBasic, hE]
  refine ⟨DenomCoin_IsValid_STAKE (-5), hN, by decide, hR, ?_, ?_⟩
  · show unbondUnsetNegative.ValidateBasic ≠ some ErrInvalidCoins
    rw [hR]; decide
  · show unbondUnsetNegative.ValidateBasic ≠ some ErrInvalidCoins
    rw [hR]; decide

/-! ## Commission errors -/

theorem TxModComm_ValidateBasic_negative {Actor : Type} [SdkActor Actor] (d : Actor)
    (c : Decimal) (hE : SdkActor.Empty d = false) (hc : c.toRat < 0) :
    (TxModComm.mk d c).ValidateBasic = some errCommissionNegative := by
  have hL := (Decimal_LT_zero_iff c).2 hc
  simp [TxModComm.ValidateBasic, hE, hL]

theorem TxModComm_ValidateBasic_huge {Actor : Type} [SdkActor Actor] (d : Actor)
    (c : Decimal) (hE : SdkActor.Empty d = false) (hc : 1 / 10 < c.toRat) :
    (TxModComm.mk d c).ValidateBasic = some errCommissionHuge := by
  have hL : c.LT (NewDecimal 0 1) = false := by
    rw [← Bool.not_eq_true, Decimal_LT_zero_iff]
    exact not_lt.2 (le_trans (by norm_num) hc.le)
  have hG := (Decimal_GT_bound_iff c).2 hc
  simp [TxModComm.ValidateBasic, hE, hL, hG]

theorem TxModComm_ValidateBasic_range {Actor : Type} [SdkActor Actor] (tx : TxModComm Actor) :
    tx.ValidateBasic = none ∨ tx.ValidateBasic = some errValidatorEmpty ∨
      tx.ValidateBasic = some errCommissionNegative ∨
      tx.ValidateBasic = some errCommissionHuge := by
  simp only [TxModComm.ValidateBasic]
  split_ifs <;> simp

theorem TxNominate_ValidateBasic_of_bonding_ok {Actor Coin : Type} [SdkActor Actor]
    [CoinLib Coin] (n : Actor) (a : Coin) (c : Decimal) (hE : SdkActor.Empty n = false)
    (hV : CoinLib.IsValid [a] = true) (hN : CoinLib.IsNonnegative [a] = true) :
    (TxNominate.mk n a c).ValidateBasic = (TxModComm.mk n c).ValidateBasic := by
  have hb := (TxBonding_ValidateBasic_eq_none_iff (TxBonding.mk n a)).2 ⟨hE, hV, hN⟩
  rw [TxNominate_ValidateBasic_eq]
  simp only [hb]

/-- C7: for a non-empty actor `n`, a commission below 0.0 makes
`TxModComm.ValidateBasic` fail with `CommissionNegative` and a commission above
1.0 makes it fail with `CommissionHuge`; the same holds for
`TxNominate.ValidateBasic` when the amount checks pass. On any `TxModComm`
(actor `d`, empty or not) the result is success, `ValidatorEmpty`,
`CommissionNegative` or `CommissionHuge`, never `InvalidCoins`: no amount is
checked. -/
theorem commission_out_of_range {Actor Coin : Type} [SdkActor Actor] [CoinLib Coin]
    (n d : Actor) (a : Coin) (c : Decimal) (hE : SdkActor.Empty n = false) :
    (c.toRat < 0 → (TxModComm.mk n c).ValidateBasic = some errCommissionNegative) ∧
      (1 < c.toRat → (TxModComm.mk n c).ValidateBasic = some errCommissionHuge) ∧
      (CoinLib.IsValid [a] = true → CoinLib.IsNonnegative [a] = true → c.toRat < 0 →
        (TxNominate.mk n a c).ValidateBasic = some errCommissionNegative) ∧
      (CoinLib.IsValid [a] = true → CoinLib.IsNonnegative [a] = true → 1 < c.toRat →
        (TxNominate.mk n a c).ValidateBasic = some errCommissionHuge) ∧
      ((TxModComm.mk d c).ValidateBasic = none ∨
        (TxModComm.mk d c).ValidateBasic = some errValidatorEmpty ∨
        (TxModComm.mk d c).ValidateBasic = some errCommissionNegative ∨
        (TxModComm.mk d c).ValidateBasic = some errCommissionHuge) ∧
      (TxModComm.mk d c).ValidateBasic ≠ some ErrInvalidCoins := by
  have hlt : (1 : ℚ) / 10 < 1 := by norm_num
  refine ⟨fun h => TxModComm_ValidateBasic_negative n c hE h,
    fun h => TxModComm_ValidateBasic_huge n c hE (lt_trans hlt h),
    fun hV hN h => ?_, fun hV hN h => ?_, TxModComm_ValidateBasic_range _, ?_⟩
  · rw [TxNominate_ValidateBasic_of_bonding_ok n a c hE hV hN]
    exact TxModComm_ValidateBasic_negative n c hE h
  · rw [TxNominate_ValidateBasic_of_bonding_ok n a c hE hV hN]
    exact TxModComm_ValidateBasic_huge n c hE (lt_trans hlt h)
  · rcases TxModComm_ValidateBasic_range (TxModComm.mk d c) with h | h | h | h <;>
      rw [h] <;> decide

/-- The commission -0.01. -/
def minusHundredth : Decimal := NewDecimal (-1) 2

/-- The commission 1.5. -/
def oneAndHalf : Decimal := NewDecimal 15 1

theorem minusHundredth_toRat : minusHundredth.toRat = -1 / 100 := by
  simp only [minusHundredth, NewDecimal, Decimal.toRat]; norm_num

theorem oneAndHalf_toRat : oneAndHalf.toRat = 3 / 2 := by
  simp only [oneAndHalf, NewDecimal, Decimal.toRat]; norm_num

/-- C7 (witness): `ModifyCommission(delegatee="V1", commission=-0.01)` fails with
`CommissionNegative` and `Nominate(nominee="V1", amount=50 "STAKE",
commission=1.5)` fails with `CommissionHuge`. -/
theorem commission_out_of_range_witness :
    SdkActor.Empty (Address.mk "V1") = false ∧
      (TxModComm.mk (Address.mk "V1") minusHundredth).ValidateBasic =
        some errCommissionNegative ∧
      (TxNominate.mk (Address.mk "V1") (DenomCoin.mk "STAKE" 50) oneAndHalf).ValidateBasic =
        some errCommissionHuge :=
  ⟨Address_Empty_V1,
    (commission_out_of_range (Address.mk "V1") (Address.mk "") (DenomCoin.mk "STAKE" 50)
      minusHundredth Address_Empty_V1).1 (by rw [minusHundredth_toRat]; norm_num),
    (commission_out_of_range (Address.mk "V1") (Address.mk "") (DenomCoin.mk "STAKE" 50)
      oneAndHalf Address_Empty_V1).2.2.2.1 (DenomCoin_IsValid_STAKE 50)
      ((DenomCoin_IsNonnegative_iff "STAKE" 50).2 (by decide))
      (by rw [oneAndHalf_toRat]; norm_num)⟩

/-! ## Wire discriminants -/

theorem String_append_left_ne (name a b : String) (h : a ≠ b) : name ++ a ≠ name ++ b := by
  intro e
  apply h
  have hd := congrArg String.data e
  simp only [String.data_append] at hd
  exact String.ext (List.append_cancel_left hd)

/-- C8: the four bytes are 0x55, 0x56, 0x57, 0x58 and pairwise different; for
every module name the four tag strings are pairwise different; `init` registers
exactly the four variants, each with its own tag and byte. -/
theorem discriminants_distinct (name : String) :
    (ByteTxBond = 0x55 ∧ ByteTxUnbond = 0x56 ∧ ByteTxNominate = 0x57 ∧
        ByteTxModComm = 0x58) ∧
      List.Pairwise (fun x y => x ≠ y)
        [ByteTxBond, ByteTxUnbond, ByteTxNominate, ByteTxModComm] ∧
      List.Pairwise (fun x y => x ≠ y)
        [TypeTxBond name, TypeTxUnbond name, TypeTxNominate name, TypeTxModComm name] ∧
      (TypeTxBond name = name ++ "/bond" ∧ TypeTxUnbond name = name ++ "/unbond" ∧
        TypeTxNominate name = name ++ "/nominate" ∧
        TypeTxModComm name = name ++ "/modComm") ∧
      init name [] =
        [Registration.mk TxType.TxBond (TypeTxBond name) ByteTxBond,
         Registration.mk TxType.TxUnbond (TypeTxUnbond name) ByteTxUnbond,
         Registration.mk TxType.TxNominate (TypeTxNominate name) ByteTxNominate,
         Registration.mk TxType.TxModComm (TypeTxModComm name) ByteTxModComm] := by
  refine ⟨⟨rfl, rfl, rfl, rfl⟩, by decide, ?_, ⟨rfl, rfl, rfl, rfl⟩, rfl⟩
  simp only [List.pairwise_cons, List.mem_cons, List.mem_singleton, List.not_mem_nil,
    forall_eq_or_imp, forall_eq, TypeTxBond, TypeTxUnbond, TypeTxNominate, TypeTxModComm,
    List.Pairwise.nil, and_true, IsEmpty.forall_iff, implies_true]
  refine ⟨⟨?_, ?_, ?_⟩, ⟨?_, ?_⟩, ?_⟩ <;>
    exact String_append_left_ne name _ _ (by decide)

/-! ## Bond and Unbond validate identically -/

/-- C9: for every delegatee `d` and amount `a`, `ValidateBasic` on `TxBond{d, a}`
returns the same result as `ValidateBasic` on `TxUnbond{d, a}`, also when called
through the interface. -/
theorem TxBond_ValidateBasic_eq_TxUnbond {Actor Coin : Type} [SdkActor Actor] [CoinLib Coin]
    (d : Actor) (a : Coin) :
    (TxBond.mk (TxBonding.mk d a)).ValidateBasic =
        (TxUnbond.mk (TxBonding.mk d a)).ValidateBasic ∧
      (TxInner.TxBond (TxBond.mk (TxBonding.mk d a))).ValidateBasic =
        (TxInner.TxUnbond (TxUnbond.mk (TxBonding.mk d a))).ValidateBasic := by
  constructor
  · simp only [TxBond.ValidateBasic, TxUnbond.ValidateBasic]
  · simp only [TxInner.ValidateBasic, TxBond.ValidateBasic, TxUnbond.ValidateBasic]

/-! ## Construction never validates -/

/-- The commission 2.0. -/
def two : Decimal := NewDecimal 2 0

theorem two_toRat : two.toRat = 2 := by
  simp [two, NewDecimal, Decimal.toRat]

/-- C10: for every actor, amount and commission the four constructors return an
envelope whose wrapped transaction holds exactly the fields passed in; the
envelope is built also when validation of the wrapped transaction fails: with
commission 2.0 for every actor and amount, and with the unset actor `""` and the
amount `-5 "STAKE"`. -/
theorem constructors_total {Actor Coin : Type} [SdkActor Actor] [CoinLib Coin]
    (d : Actor) (a : Coin) (c : Decimal) :
    ((NewTxBond d a).TxInner = TxInner.TxBonding (TxBonding.mk d a) ∧
        (NewTxUnbond d a).TxInner = TxInner.TxBonding (TxBonding.mk d a) ∧
        (NewTxNominate d a c).TxInner = TxInner.TxNominate (TxNominate.mk d a c) ∧
        (NewTxModComm d c : Tx Actor Coin).TxInner = TxInner.TxModComm (TxModComm.mk d c)) ∧
      ((NewTxModComm d two : Tx Actor Coin).TxInner = TxInner.TxModComm (TxModComm.mk d two) ∧
        (NewTxModComm d two : Tx Actor Coin).TxInner.ValidateBasic ≠ none) ∧
      ((NewTxNominate d a two).TxInner = TxInner.TxNominate (TxNominate.mk d a two) ∧
        (NewTxNominate d a two).TxInner.ValidateBasic ≠ none) ∧
      ((NewTxBond (Address.mk "") (DenomCoin.mk "STAKE" (-5))).TxInner.ValidateBasic =
          some errValidatorEmpty ∧
        (NewTxUnbond (Address.mk "") (DenomCoin.mk "STAKE" (-5))).TxInner.ValidateBasic =
          some errValidatorEmpty) := by
  have h2 : ¬ (two.toRat ≤ 1 / 10) := by rw [two_toRat]; norm_num
  refine ⟨⟨rfl, rfl, rfl, rfl⟩, ⟨rfl, ?_⟩, ⟨rfl, ?_⟩, ?_, ?_⟩
  · intro h
    exact h2 ((TxModComm_ValidateBasic_eq_none_iff (TxModComm.mk d two)).1 h).2.2
  · intro h
    exact h2 ((TxNominate_ValidateBasic_eq_none_iff (TxNominate.mk d a two)).1 h).2.2.2.2
  · show unbondUnsetNegative.ValidateBasic = some errValidatorEmpty
    simp [TxBonding.ValidateBasic, Address_Empty_unset, unbondUnsetNegative]
  · show unbondUnsetNegative.ValidateBasic = some errValidatorEmpty
    simp [TxBonding.ValidateBasic, Address_Empty_unset, unbondUnsetNegative]

/-! ## Order of the checks -/

theorem DenomCoin_IsNonnegative_minus_five (d : String) :
    CoinLib.IsNonnegative [DenomCoin.mk d (-5)] = false := by
  rw [← Bool.not_eq_true]
  exact fun h => absurd ((DenomCoin_IsNonnegative_iff d (-5)).1 h) (by decide)

theorem DenomCoin_IsValid_no_denom (n : Int) :
    CoinLib.IsValid [DenomCoin.mk "" n] = false := by
  simp only [CoinLib.IsValid, List.all_cons, List.all_nil, Bool.and_true]
  decide

/-- C11: the first failing check surfaces. With an empty actor `n`,
`TxNominate.ValidateBasic` returns `ValidatorEmpty` whatever the amount and the
commission are, and so do the bonding transactions (actor before amount) and
`TxModComm` (actor before commission). With a non-empty nominee and an amount
whose coin set is invalid or negative, `TxNominate.ValidateBasic` returns
`InvalidCoins` whatever the commission is. -/
theorem first_failing_check_surfaces {Actor Coin : Type} [SdkActor Actor] [CoinLib Coin]
    (n : Actor) (a : Coin) (c : Decimal) :
    (SdkActor.Empty n = true →
        (TxNominate.mk n a c).ValidateBasic = some errValidatorEmpty ∧
        (TxBond.mk (TxBonding.mk n a)).ValidateBasic = some errValidatorEmpty ∧
        (TxUnbond.mk (TxBonding.mk n a)).ValidateBasic = some errValidatorEmpty ∧
        (TxModComm.mk n c).ValidateBasic = some errValidatorEmpty) ∧
      (SdkActor.Empty n = false →
        (CoinLib.IsValid [a] = false ∨ CoinLib.IsNonnegative [a] = false) →
        (TxNominate.mk n a c).ValidateBasic = some ErrInvalidCoins) := by
  constructor
  · intro hE
    refine ⟨?_, ?_, ?_, ?_⟩
    · simp [TxNominate.ValidateBasic, hE]
    · simp [TxBond.ValidateBasic, TxBonding.ValidateBasic, hE]
    · simp [TxUnbond.ValidateBasic, TxBonding.ValidateBasic, hE]
    · simp [TxModComm.ValidateBasic, hE]
  · intro hE hA
    rcases hA with hV | hN
    · simp [TxNominate.ValidateBasic, hE, hV]
    · cases hV : CoinLib.IsValid [a] <;> simp [TxNominate.ValidateBasic, hE, hV, hN]

/-- C11 (witness): `Nominate(nominee="", amount=-5 "STAKE", commission=1.5)`
returns `ValidatorEmpty` and `Nominate(nominee="V2", amount=-5 "STAKE",
commission=1.5)` returns `InvalidCoins`. -/
theorem first_failing_check_surfaces_witness :
    SdkActor.Empty nominateAllWrong.Nominee = true ∧
      nominateAllWrong.ValidateBasic = some errValidatorEmpty ∧
      SdkActor.Empty nominateNegativeHuge.Nominee = false ∧
      CoinLib.IsNonnegative [nominateNegativeHuge.Amount] = false ∧
      nominateNegativeHuge.ValidateBasic = some ErrInvalidCoins :=
  ⟨Address_Empty_unset,
    ((first_failing_check_surfaces (Address.mk "") (DenomCoin.mk "STAKE" (-5))
      (NewDecimal 15 1)).1 Address_Empty_unset).1,
    Address_Empty_V2, DenomCoin_IsNonnegative_minus_five "STAKE",
    (first_failing_check_surfaces (Address.mk "V2") (DenomCoin.mk "STAKE" (-5))
      (NewDecimal 15 1)).2 Address_Empty_V2
      (Or.inr (DenomCoin_IsNonnegative_minus_five "STAKE"))⟩

/-! ## Nominate validation as a composition -/

theorem TxBonding_ValidateBasic_negative {Actor Coin : Type} [SdkActor Actor] [CoinLib Coin]
    (tx : TxBonding Actor Coin) (hE : SdkActor.Empty tx.Delegatee = false)
    (hN : CoinLib.IsNonnegative [tx.Amount] = false) :
    tx.ValidateBasic = some ErrInvalidCoins := by
  cases hV : CoinLib.IsValid [tx.Amount] <;> simp [TxBonding.ValidateBasic, hE, hV, hN]

theorem TxBonding_ValidateBasic_invalid {Actor Coin : Type} [SdkActor Actor] [CoinLib Coin]
    (tx : TxBonding Actor Coin) (hE : SdkActor.Empty tx.Delegatee = false)
    (hV : CoinLib.IsValid [tx.Amount] = false) :
    tx.ValidateBasic = some ErrInvalidCoins := by
  simp [TxBonding.ValidateBasic, hE, hV]

/-- C12: for every nominee `n`, amount `a` and commission `c`,
`TxNominate{n, a, c}.ValidateBasic` is the sequential composition
`bondingThenModComm n a c`: it equals `TxBonding{n, a}.ValidateBasic` when that
returns an error and equals `TxModComm{n, c}.ValidateBasic` otherwise. -/
theorem TxNominate_ValidateBasic_eq_bondingThenModComm {Actor Coin : Type} [SdkActor Actor]
    [CoinLib Coin] (n : Actor) (a : Coin) (c : Decimal) :
    (TxNominate.mk n a c).ValidateBasic = bondingThenModComm n a c ∧
      ((TxBonding.mk n a).ValidateBasic ≠ none →
        (TxNominate.mk n a c).ValidateBasic = (TxBonding.mk n a).ValidateBasic) ∧
      ((TxBonding.mk n a).ValidateBasic = none →
        (TxNominate.mk n a c).ValidateBasic = (TxModComm.mk n c).ValidateBasic) := by
  have h := TxNominate_ValidateBasic_eq (TxNominate.mk n a c)
  refine ⟨h, ?_, ?_⟩
  · intro hb
    rw [h]
    cases hv : (TxBonding.mk n a).ValidateBasic with
    | none => exact absurd hv hb
    | some e => rfl
  · intro hb
    rw [h]
    simp only [hb]

/-- C12 (witness): on `Nominate(nominee="V2", amount=-5 "STAKE", commission=1.5)`
the bonding validator fails and the result is its error `InvalidCoins`; on
`Nominate(nominee="V2", amount=50 "STAKE", commission=0.5)` the bonding validator
passes and the result is that of the commission validator. -/
theorem TxNominate_ValidateBasic_eq_bondingThenModComm_witness :
    (TxBonding.mk (Address.mk "V2") (DenomCoin.mk "STAKE" (-5))).ValidateBasic ≠ none ∧
      nominateNegativeHuge.ValidateBasic =
        (TxBonding.mk (Address.mk "V2") (DenomCoin.mk "STAKE" (-5))).ValidateBasic ∧
      (TxBonding.mk (Address.mk "V2") (DenomCoin.mk "STAKE" 50)).ValidateBasic = none ∧
      nominateHalf.ValidateBasic =
        (TxModComm.mk (Address.mk "V2") (NewDecimal 5 1)).ValidateBasic :=
  have hF : (TxBonding.mk (Address.mk "V2") (DenomCoin.mk "STAKE" (-5))).ValidateBasic ≠
      none := by
    rw [TxBonding_ValidateBasic_negative _ Address_Empty_V2
      (DenomCoin_IsNonnegative_minus_five "STAKE")]
    decide
  have hO : (TxBonding.mk (Address.mk "V2") (DenomCoin.mk "STAKE" 50)).ValidateBasic =
      none :=
    (TxBonding_ValidateBasic_eq_none_iff _).2 ⟨Address_Empty_V2, DenomCoin_IsValid_STAKE 50,
      (DenomCoin_IsNonnegative_iff "STAKE" 50).2 (by decide)⟩
  ⟨hF,
    (TxNominate_ValidateBasic_eq_bondingThenModComm (Address.mk "V2")
      (DenomCoin.mk "STAKE" (-5)) (NewDecimal 15 1)).2.1 hF,
    hO,
    (TxNominate_ValidateBasic_eq_bondingThenModComm (Address.mk "V2")
      (DenomCoin.mk "STAKE" 50) (NewDecimal 5 1)).2.2 hO⟩

/-! ## Characterisation of `TxBonding.ValidateBasic` -/

/-- C13: `TxBonding.ValidateBasic` returns no error if and only if the delegatee
is non-empty and the singleton coin set of the amount is valid and
non-negative; an error it returns is `ValidatorEmpty` or `InvalidCoins`, never
`CommissionNegative` or `CommissionHuge`; with a non-empty delegatee an invalid
coin set yields `InvalidCoins`, whether or not it is non-negative. -/
theorem TxBonding_ValidateBasic_characterised {Actor Coin : Type} [SdkActor Actor]
    [CoinLib Coin] (tx : TxBonding Actor Coin) :
    (tx.ValidateBasic = none ↔
        SdkActor.Empty tx.Delegatee = false ∧ CoinLib.IsValid [tx.Amount] = true ∧
          CoinLib.IsNonnegative [tx.Amount] = true) ∧
      (∀ e, tx.ValidateBasic = some e → e = errValidatorEmpty ∨ e = ErrInvalidCoins) ∧
      tx.ValidateBasic ≠ some errCommissionNegative ∧
      tx.ValidateBasic ≠ some errCommissionHuge ∧
      (SdkActor.Empty tx.Delegatee = false → CoinLib.IsValid [tx.Amount] = false →
        tx.ValidateBasic = some ErrInvalidCoins) := by
  have hRange : ∀ e, tx.ValidateBasic = some e →
      e = errValidatorEmpty ∨ e = ErrInvalidCoins := by
    intro e
    simp only [TxBonding.ValidateBasic]
    split_ifs <;> simp <;> intro h <;> simp [← h]
  refine ⟨TxBonding_ValidateBasic_eq_none_iff tx, hRange, ?_, ?_,
    fun hE hV => TxBonding_ValidateBasic_invalid tx hE hV⟩
  · intro h
    rcases hRange _ h with h1 | h1 <;> exact absurd h1 (by decide)
  · intro h
    rcases hRange _ h with h1 | h1 <;> exact absurd h1 (by decide)

/-- C13 (witness): `Bond(delegatee="V1", amount=-5 "")` has a non-empty delegatee
and a coin set that is invalid and negative, and fails with `InvalidCoins`;
the error returned for `Bond(delegatee="", amount=100 "STAKE")` is
`ValidatorEmpty` or `InvalidCoins`. -/
theorem TxBonding_ValidateBasic_characterised_witness :
    SdkActor.Empty bondInvalidDenom.Delegatee = false ∧
      CoinLib.IsValid [bondInvalidDenom.Amount] = false ∧
      CoinLib.IsNonnegative [bondInvalidDenom.Amount] = false ∧
      bondInvalidDenom.ValidateBasic = some ErrInvalidCoins ∧
      bondUnset.ValidateBasic = some errValidatorEmpty ∧
      (errValidatorEmpty = errValidatorEmpty ∨ errValidatorEmpty = ErrInvalidCoins) :=
  have hU : bondUnset.ValidateBasic = some errValidatorEmpty := by
    simp [TxBonding.ValidateBasic, Address_Empty_unset, bondUnset]
  ⟨Address_Empty_V1, DenomCoin_IsValid_no_denom (-5), DenomCoin_IsNonnegative_minus_five "",
    (TxBonding_ValidateBasic_characterised bondInvalidDenom).2.2.2.2 Address_Empty_V1
      (DenomCoin_IsValid_no_denom (-5)),
    hU,
    (TxBonding_ValidateBasic_characterised bondUnset).2.1 errValidatorEmpty hU⟩

end Stake
